import Mathlib

/-!
Shallow embedding of the StackSpot SDK HTTP client (`StackSpotClient`):
token cache and refresh protocol, authenticated request dispatch, verb
wrappers, and constructor validation.  JavaScript runtime values that the
client inspects (parsed JSON bodies, truthiness, string conversion) are
modelled explicitly; the network is an explicit environment input (the
outcome fetch would produce), and `Date.now()` is an explicit parameter.
-/

namespace StackSpot

/-- JSON-like JavaScript runtime values as the client observes them:
results of `JSON.parse`, request bodies, configuration fields. Numbers are
modelled as integers (all numeric values the client manipulates are integral
millisecond/second counts). -/
inductive Json where
  | null
  | bool (b : Bool)
  | num (n : Int)
  | str (s : String)
  | arr (elems : List Json)
  | obj (fields : List (String × Json))

/-- JavaScript truthiness of a value: `null`, `false`, `0` and `""` are
falsy; every array and object is truthy. -/
def jsTruthy : Json → Bool
  | .null => false
  | .bool b => b
  | .num n => n != 0
  | .str s => s != ""
  | .arr _ => true
  | .obj _ => true

/-- First binding of a key in an object field list. -/
def lookupField : List (String × Json) → String → Option Json
  | [], _ => none
  | (k, v) :: rest, key => if k = key then some v else lookupField rest key

/-- JavaScript property read `x.key` on a parsed JSON value: `none` models
`undefined` (key absent, or the receiver is not an object). -/
def Json.get : Json → String → Option Json
  | .obj fields, key => lookupField fields key
  | _, _ => none

/-- Keep a possibly-undefined value only when it is defined and truthy;
this is the shape of a JavaScript `a || b` chain step. -/
def truthyOpt : Option Json → Option Json
  | some v => if jsTruthy v then some v else none
  | none => none

mutual

/-- JavaScript `String(x)` conversion for the values above (template
literals and `new Error(x)` messages). `String` of an array joins the
converted elements with commas; objects convert to "[object Object]". -/
def jsToString : Json → String
  | .null => "null"
  | .bool true => "true"
  | .bool false => "false"
  | .num n => toString n
  | .str s => s
  | .arr elems => String.intercalate "," (jsJoinParts elems)
  | .obj _ => "[object Object]"

/-- Element conversion used by `Array.prototype.join`: `null` elements
become the empty string. -/
def jsJoinParts : List Json → List String
  | [] => []
  | .null :: rest => "" :: jsJoinParts rest
  | v :: rest => jsToString v :: jsJoinParts rest

end

/-- Template-literal conversion of a possibly-undefined value
(`undefined` prints as "undefined"). -/
def jsShow : Option Json → String
  | none => "undefined"
  | some v => jsToString v

/-- A JavaScript number that may be `NaN` (all non-`NaN` values the client
computes are integral). -/
inductive JsNum where
  | nan
  | val (n : Int)

/-- JavaScript `>` against a plain integer; `NaN` compares false. -/
def JsNum.gtInt : JsNum → Int → Bool
  | .nan, _ => false
  | .val n, m => decide (n > m)

/-- Outcome of `JSON.parse` on a body text: the parsed value, or the
thrown error's message. -/
inductive ParseResult where
  | success (j : Json)
  | failure (msg : String)

/-- `response.ok` of the fetch API: status in the 2xx range. -/
def respOk (status : Nat) : Bool :=
  decide (200 ≤ status) && decide (status < 300)

/-- The mutable token cache of `StackSpotClient`:
`accessToken` starts `null` (`none`) and holds whatever
`data.access_token` was last stored; `tokenExpiresAt` starts 0. -/
structure TokenState where
  accessToken : Option Json
  tokenExpiresAt : JsNum

/-- Initial client state: `accessToken = null`, `tokenExpiresAt = 0`. -/
def initialTokenState : TokenState :=
  { accessToken := none, tokenExpiresAt := JsNum.val 0 }

/-- What the single `fetch` of `refreshToken` produced: a thrown error
(name and message), or an HTTP response with status, status text, body
text, and the outcome of parsing that body as JSON (`response.json()`). -/
inductive TokenFetchOutcome where
  | thrown (name : String) (msg : String)
  | response (status : Nat) (statusText : String) (bodyText : String)
      (bodyParse : ParseResult)

/-- `Number` coercion of the truthy `data.expires_in \x7b|\x7d 3600` operand as it
enters the multiplication `(data.expires_in || 3600) * 1000`: absent or
falsy gives the 3600 default; a numeric value is used as-is; a truthy
string is parsed as a decimal integer when possible (other shapes, and
non-numeric strings, yield `NaN`; `true` coerces to 1). -/
def expiresInValue (data : Json) : JsNum :=
  match truthyOpt (data.get "expires_in") with
  | none => JsNum.val 3600
  | some (.num n) => JsNum.val n
  | some (.str s) =>
      match s.toInt? with
      | some n => JsNum.val n
      | none => JsNum.nan
  | some (.bool _) => JsNum.val 1
  | some _ => JsNum.nan

/-- `Date.now() + (data.expires_in || 3600) * 1000`, the absolute expiry
stored by a successful refresh. -/
def computedExpiry (refreshNow : Int) (data : Json) : JsNum :=
  match expiresInValue data with
  | .nan => JsNum.nan
  | .val n => JsNum.val (refreshNow + n * 1000)

/-- `StackSpotClient.refreshToken`, given the state, the `Date.now()`
instant observed inside the method, and the fetch outcome.  Returns the
state after the call together with normal or thrown completion.  The
surrounding `catch` wraps every failure (network error, non-ok status,
body parse failure) as "Falha ao autenticar: <cause>"; on success both
cache fields are assigned from the response. -/
def refreshTokenRun (st : TokenState) (refreshNow : Int)
    (outcome : TokenFetchOutcome) : TokenState × Except String Unit :=
  match outcome with
  | .thrown _ msg => (st, Except.error (s!"Falha ao autenticar: {msg}"))
  | .response status statusText bodyText bodyParse =>
    if respOk status then
      match bodyParse with
      | .failure msg => (st, Except.error (s!"Falha ao autenticar: {msg}"))
      | .success data =>
        (ateUpdate st refreshNow data, Except.ok ())
    else
      (st, Except.error
        (s!"Falha ao autenticar: Erro ao obter token: {status} {statusText} - {bodyText}"))
where
  /-- The two assignments `this.accessToken = data.access_token` and
  `this.tokenExpiresAt = Date.now() + (data.expires_in || 3600) * 1000`,
  executed together once the body has parsed. -/
  ateUpdate (st : TokenState) (refreshNow : Int) (data : Json) : TokenState :=
    { st with
        accessToken := data.get "access_token",
        tokenExpiresAt := computedExpiry refreshNow data }

/-- Truthiness of the possibly-null cached token (`this.accessToken &&`). -/
def truthyTok : Option Json → Bool
  | none => false
  | some v => jsTruthy v

/-- `StackSpotClient.getAccessToken`: reuse the cached token when it is
truthy and expires strictly later than `now + 5 * 60 * 1000`; otherwise
await a refresh and return whatever token it stored.  The middle `Bool`
of the result records whether the token endpoint was contacted. -/
def getAccessTokenRun (st : TokenState) (now refreshNow : Int)
    (outcome : TokenFetchOutcome) :
    TokenState × Bool × Except String (Option Json) :=
  if truthyTok st.accessToken && st.tokenExpiresAt.gtInt (now + 5 * 60 * 1000) then
    (st, false, Except.ok st.accessToken)
  else
    match refreshTokenRun st refreshNow outcome with
    | (st1, Except.ok _) => (st1, true, Except.ok st1.accessToken)
    | (st1, Except.error e) => (st1, true, Except.error e)

/-- The configuration object passed to the `StackSpotClient` constructor.
Field shape follows the constructor's reads of `config` (the `types`
module only declares this interface); every field may be absent at
runtime (`none` models `undefined`).  `toolExecutor` and
`enableFunctionCalling` are opaque pass-through values. -/
structure StackSpotConfig where
  clientId : Option String
  clientSecret : Option String
  realm : Option String
  baseURL : Option String
  inferenceBaseURL : Option String
  timeout : Option Int
  toolExecutor : Option Json
  enableFunctionCalling : Option Json

/-- The `InternalConfig` record the constructor builds.  `clientId` and
`clientSecret` are copied unchecked (so may still be absent when the
constructor throws). -/
structure InternalConfig where
  clientId : Option String
  clientSecret : Option String
  realm : String
  baseURL : String
  inferenceBaseURL : String
  timeout : Int
  toolExecutor : Option Json
  enableFunctionCalling : Option Json

/-- JavaScript `v || dflt` for a possibly-absent string: absent and the
empty string are falsy. -/
def jsOrStr (v : Option String) (dflt : String) : String :=
  match v with
  | none => dflt
  | some s => if s = "" then dflt else s

/-- JavaScript `v || dflt` for a possibly-absent number: absent and 0 are
falsy. -/
def jsOrInt (v : Option Int) (dflt : Int) : Int :=
  match v with
  | none => dflt
  | some n => if n = 0 then dflt else n

/-- Truthiness of a possibly-absent string (`!this.config.clientId`
negated): present and non-empty. -/
def strTruthy : Option String → Bool
  | none => false
  | some s => s != ""

/-- The `StackSpotClient` constructor: builds the internal config with
the documented defaults, then throws "clientId e clientSecret são
obrigatórios" when either credential is falsy. -/
def mkStackSpotClient (config : StackSpotConfig) : Except String InternalConfig :=
  let cfg : InternalConfig :=
    { clientId := config.clientId
      clientSecret := config.clientSecret
      realm := jsOrStr config.realm "stackspot-freemium"
      baseURL := jsOrStr config.baseURL "https://idm.stackspot.com"
      inferenceBaseURL := jsOrStr config.inferenceBaseURL "https://genai-inference-app.stackspot.com"
      timeout := jsOrInt config.timeout 30000
      toolExecutor := config.toolExecutor
      enableFunctionCalling := config.enableFunctionCalling }
  if !strTruthy cfg.clientId || !strTruthy cfg.clientSecret then
    Except.error "clientId e clientSecret são obrigatórios"
  else
    Except.ok cfg

/-- The options object of `StackSpotClient.request`: optional body,
header overrides, base-URL override and streaming flag (absent flags are
falsy). -/
structure RequestOptions where
  body : Option Json
  headers : List (String × String)
  baseURL : Option String
  stream : Bool

/-- `request` options with every field absent (the `= \x7b\x7d` default). -/
def emptyRequestOptions : RequestOptions :=
  { body := none, headers := [], baseURL := none, stream := false }

/-- The body attached to the outgoing fetch: passed through unmodified in
streaming mode, otherwise the result of `JSON.stringify`. -/
inductive FetchBody where
  | rawPassthrough (v : Json)
  | jsonStringified (v : Json)

/-- Lines 143-150 of the client: attach a body only when `options.body`
is truthy; stringify it unless `options.stream` is set. -/
def computeFetchBody (opts : RequestOptions) : Option FetchBody :=
  match opts.body with
  | none => none
  | some b =>
    if jsTruthy b then
      if opts.stream then some (FetchBody.rawPassthrough b)
      else some (FetchBody.jsonStringified b)
    else none

/-- Overwrite the value of a key in an association list when present
(keeping its position), else append the pair: one step of an object
spread. -/
def setKey (l : List (String × String)) (k v : String) : List (String × String) :=
  if l.any (fun p => p.1 = k) then
    l.map (fun p => if p.1 = k then (k, v) else p)
  else
    l ++ [(k, v)]

/-- JavaScript object spread `\x7b ...base, ...extra \x7d` over unique-key
records, as an association list. -/
def spreadPairs (base : List (String × String)) : List (String × String) → List (String × String)
  | [] => base
  | (k, v) :: rest => spreadPairs (setKey base k v) rest

/-- The fixed headers `request` builds before spreading
`options.headers` over them. -/
def baseHeaders (token : Option Json) : List (String × String) :=
  let tokenStr := jsShow token
  [("Authorization", s!"Bearer {tokenStr}"),
   ("Content-Type", "application/json"),
   ("User-Agent", "StackSpot-SDK/1.0.0")]

/-- The fetch call `request` issues: URL, method, merged headers, the
timeout wired into the abort signal, and the attached body (if any). -/
structure FetchCall where
  url : String
  method : String
  headers : List (String × String)
  timeoutMs : Int
  body : Option FetchBody

/-- What the resource-API `fetch` produced: a thrown error (name and
message — an abort carries name "AbortError"), or an HTTP response whose
body text and JSON-parse outcome are given. -/
inductive FetchOutcome where
  | thrown (name : String) (msg : String)
  | response (status : Nat) (statusText : String) (bodyText : String)
      (bodyParse : ParseResult)

/-- A JavaScript error as the `catch (error)` handler sees it. -/
structure JsError where
  name : String
  message : String

/-- Lines 155-169: the error message derived from a non-ok response.
Start from "HTTP <status>: <statusText>".  If the body parses to JSON
`null`, the read `errorJson.message` throws a TypeError inside the same
`try`, so the `catch` applies `errorText || errorMessage` exactly as for
a parse failure.  If the body parses to any other value, take
`errorJson.message || errorJson.error || errorMessage` (JavaScript `||`,
so only truthy field values are used; property reads on non-null
non-objects yield `undefined` without throwing).  If the parse throws,
take `errorText || errorMessage`. -/
def deriveErrorMessage (status : Nat) (statusText bodyText : String)
    (bodyParse : ParseResult) : String :=
  let dflt := s!"HTTP {status}: {statusText}"
  match bodyParse with
  | .success Json.null => if bodyText = "" then dflt else bodyText
  | .success j =>
    match truthyOpt (j.get "message") with
    | some v => jsToString v
    | none =>
      match truthyOpt (j.get "error") with
      | some v => jsToString v
      | none => dflt
  | .failure _ => if bodyText = "" then dflt else bodyText

/-- What `request` returns on success: the live response object in
streaming mode, the parsed JSON value, or the raw body text when the
success body is not JSON. -/
inductive RequestResult where
  | streamResp (status : Nat) (statusText : String)
  | jsonValue (j : Json)
  | textValue (s : String)

/-- The `try` block of `request` around the fetch: non-ok responses throw
an `Error` (name "Error") carrying the derived message; ok responses
return the stream, the parsed body, or the raw text. -/
def requestTryBlock (outcome : FetchOutcome) (stream : Bool) :
    Except JsError RequestResult :=
  match outcome with
  | .thrown name msg => Except.error { name := name, message := msg }
  | .response status statusText bodyText bodyParse =>
    if respOk status then
      if stream then Except.ok (RequestResult.streamResp status statusText)
      else
        match bodyParse with
        | .success j => Except.ok (RequestResult.jsonValue j)
        | .failure _ => Except.ok (RequestResult.textValue bodyText)
    else
      Except.error
        { name := "Error",
          message := deriveErrorMessage status statusText bodyText bodyParse }

/-- The `catch` handler of `request`: an error named "AbortError" is
replaced by `new Error("Request timeout")`; every other error is
rethrown unchanged. -/
def requestHandleResponse (outcome : FetchOutcome) (stream : Bool) :
    Except String RequestResult :=
  match requestTryBlock outcome stream with
  | Except.ok r => Except.ok r
  | Except.error e =>
    if e.name = "AbortError" then Except.error "Request timeout"
    else Except.error e.message

/-- The external world of one `request` call: the `Date.now()` instants
observed by `getAccessToken` and (if reached) `refreshToken`, the token
endpoint's outcome, and the resource fetch's outcome. -/
structure RequestEnv where
  now : Int
  refreshNow : Int
  tokenOutcome : TokenFetchOutcome
  fetchOutcome : FetchOutcome

/-- `StackSpotClient.request`: obtain a token (possibly refreshing),
build the URL (`options.baseURL || inferenceBaseURL` followed by the
path), headers, timeout and body of the fetch call, then map the fetch
outcome through the response/error handling.  Returns the token state
after the call, the issued fetch call (`none` when token acquisition
already failed), and the result or thrown message. -/
def request (cfg : InternalConfig) (st : TokenState) (method path : String)
    (opts : RequestOptions) (env : RequestEnv) :
    TokenState × Option FetchCall × Except String RequestResult :=
  match getAccessTokenRun st env.now env.refreshNow env.tokenOutcome with
  | (st1, _, Except.error e) => (st1, none, Except.error e)
  | (st1, _, Except.ok token) =>
    let call : FetchCall :=
      { url := jsOrStr opts.baseURL cfg.inferenceBaseURL ++ path
        method := method
        headers := spreadPairs (baseHeaders token) opts.headers
        timeoutMs := cfg.timeout
        body := computeFetchBody opts }
    (st1, some call, requestHandleResponse env.fetchOutcome opts.stream)

/-- Options accepted by `get` and `delete`: headers and base URL only. -/
structure GetOptions where
  headers : List (String × String)
  baseURL : Option String

/-- Options accepted by `post`: headers, base URL and streaming flag. -/
structure PostOptions where
  headers : List (String × String)
  baseURL : Option String
  stream : Bool

/-- Options accepted by `put`: headers and base URL only. -/
structure PutOptions where
  headers : List (String × String)
  baseURL : Option String

/-- The `request` options object a `get`/`delete` call hands over: the
caller's options (no body, no stream field), or the empty default. -/
def getOptionsAsRequestOptions : Option GetOptions → RequestOptions
  | none => emptyRequestOptions
  | some o => { body := none, headers := o.headers, baseURL := o.baseURL, stream := false }

/-- The `\x7b ...options, body \x7d` object a `post` call hands over. -/
def postOptionsWithBody (o : Option PostOptions) (body : Option Json) : RequestOptions :=
  match o with
  | none => { emptyRequestOptions with body := body }
  | some p => { body := body, headers := p.headers, baseURL := p.baseURL, stream := p.stream }

/-- The `\x7b ...options, body \x7d` object a `put` call hands over. -/
def putOptionsWithBody (o : Option PutOptions) (body : Option Json) : RequestOptions :=
  match o with
  | none => { emptyRequestOptions with body := body }
  | some p => { body := body, headers := p.headers, baseURL := p.baseURL, stream := false }

/-- `StackSpotClient.get`. -/
def clientGet (cfg : InternalConfig) (st : TokenState) (path : String)
    (o : Option GetOptions) (env : RequestEnv) :
    TokenState × Option FetchCall × Except String RequestResult :=
  request cfg st "GET" path (getOptionsAsRequestOptions o) env

/-- `StackSpotClient.post`. -/
def clientPost (cfg : InternalConfig) (st : TokenState) (path : String)
    (body : Option Json) (o : Option PostOptions) (env : RequestEnv) :
    TokenState × Option FetchCall × Except String RequestResult :=
  request cfg st "POST" path (postOptionsWithBody o body) env

/-- `StackSpotClient.put`. -/
def clientPut (cfg : InternalConfig) (st : TokenState) (path : String)
    (body : Option Json) (o : Option PutOptions) (env : RequestEnv) :
    TokenState × Option FetchCall × Except String RequestResult :=
  request cfg st "PUT" path (putOptionsWithBody o body) env

/-- `StackSpotClient.delete`. -/
def clientDelete (cfg : InternalConfig) (st : TokenState) (path : String)
    (o : Option GetOptions) (env : RequestEnv) :
    TokenState × Option FetchCall × Except String RequestResult :=
  request cfg st "DELETE" path (getOptionsAsRequestOptions o) env

/-! ## Theorems -/

/-- C1 (counterexample): a non-2xx response whose body is valid JSON but
carries neither a `message` nor an `error` field yields the generic
"HTTP <status>: <statusText>" message, not the raw body text that the
claim prescribes for the fields-absent case. -/
theorem c1_claim_counterexample :
    requestHandleResponse
      (FetchOutcome.response 400 "Bad Request" "\x7b\"foo\":1\x7d"
        (ParseResult.success (Json.obj [("foo", Json.num 1)]))) false
      = Except.error "HTTP 400: Bad Request"
    ∧ ("HTTP 400: Bad Request" : String) ≠ "\x7b\"foo\":1\x7d" :=
  ⟨rfl, by decide⟩

/-- C1 (amended): for every non-2xx response, `request` fails with the
message derived as follows: if the body parses to JSON `null`, the
property read throws and the handler falls back to the raw body text (or
"HTTP <status>: <statusText>" when the body is empty); if it parses to
any other value, the value of a truthy `message` field, else of a truthy
`error` field, else "HTTP <status>: <statusText>"; if the parse fails,
the raw body text, or "HTTP <status>: <statusText>" when the body is
empty. -/
theorem c1_error_message_derivation (stream : Bool) (status : Nat)
    (statusText bodyText : String) (bodyParse : ParseResult)
    (h : respOk status = false) :
    requestHandleResponse (FetchOutcome.response status statusText bodyText bodyParse) stream =
      Except.error
        (match bodyParse with
         | .success Json.null =>
           if bodyText = "" then s!"HTTP {status}: {statusText}" else bodyText
         | .success j =>
           match truthyOpt (j.get "message") with
           | some v => jsToString v
           | none =>
             match truthyOpt (j.get "error") with
             | some v => jsToString v
             | none => s!"HTTP {status}: {statusText}"
         | .failure _ => if bodyText = "" then s!"HTTP {status}: {statusText}" else bodyText) := by
  cases bodyParse with
  | failure m =>
    simp [requestHandleResponse, requestTryBlock, deriveErrorMessage, h]
  | success j =>
    cases j <;>
      simp [requestHandleResponse, requestTryBlock, deriveErrorMessage, h]

/-- Witness for C1: a 400 response with JSON body carrying
`message = "bad request"` fails with exactly "bad request". -/
theorem c1_error_message_derivation_witness :
    requestHandleResponse
      (FetchOutcome.response 400 "Bad Request" "\x7b\"message\": \"bad request\"\x7d"
        (ParseResult.success (Json.obj [("message", Json.str "bad request")]))) false
      = Except.error "bad request" := by
  have h := c1_error_message_derivation false 400 "Bad Request" "\x7b\"message\": \"bad request\"\x7d"
    (ParseResult.success (Json.obj [("message", Json.str "bad request")])) (by decide)
  rw [h]
  rfl

/-- C6: for every 2xx response in non-streaming mode, `request` returns
the parsed JSON value when the body parses, and the raw body text
unchanged when the parse fails — it never fails on a non-JSON success
body. -/
theorem c6_success_body_parsing (status : Nat) (statusText bodyText : String)
    (bodyParse : ParseResult) (h : respOk status = true) :
    requestHandleResponse (FetchOutcome.response status statusText bodyText bodyParse) false =
      match bodyParse with
      | .success j => Except.ok (RequestResult.jsonValue j)
      | .failure _ => Except.ok (RequestResult.textValue bodyText) := by
  cases bodyParse <;>
    simp [requestHandleResponse, requestTryBlock, h]

/-- Witness for C6: a 200 response whose body is the non-JSON text
"not json" is returned as that literal string. -/
theorem c6_success_body_parsing_witness :
    requestHandleResponse
      (FetchOutcome.response 200 "OK" "not json" (ParseResult.failure "Unexpected token")) false
      = Except.ok (RequestResult.textValue "not json") := by
  have h := c6_success_body_parsing 200 "OK" "not json" (ParseResult.failure "Unexpected token")
    (by decide)
  rw [h]

/-- C7 (counterexample): a failure cause other than a timeout — here a
500 response whose JSON body carries `message = "Request timeout"` —
also produces the exact error message "Request timeout", so that message
is not produced by timeouts alone. -/
theorem c7_claim_counterexample :
    requestHandleResponse
      (FetchOutcome.response 500 "Internal Server Error" "\x7b\"message\":\"Request timeout\"\x7d"
        (ParseResult.success (Json.obj [("message", Json.str "Request timeout")]))) false
      = Except.error "Request timeout" := rfl

/-- C7 (amended): when the fetch is aborted (the timeout fired, error
name "AbortError"), `request` fails with exactly "Request timeout",
whatever the underlying abort message; every other thrown transport
error is rethrown with its own message unchanged. -/
theorem c7_timeout_mapping (stream : Bool) (msg : String) :
    requestHandleResponse (FetchOutcome.thrown "AbortError" msg) stream
      = Except.error "Request timeout"
    ∧ ∀ name m, name ≠ "AbortError" →
        requestHandleResponse (FetchOutcome.thrown name m) stream = Except.error m := by
  constructor
  · simp [requestHandleResponse, requestTryBlock]
  · intro name m hname
    simp [requestHandleResponse, requestTryBlock, hname]

/-- Witness for C7: an abort maps to "Request timeout"; a thrown
`FetchError` is rethrown with its own message. -/
theorem c7_timeout_mapping_witness :
    requestHandleResponse (FetchOutcome.thrown "AbortError" "The user aborted a request.") false
      = Except.error "Request timeout"
    ∧ requestHandleResponse (FetchOutcome.thrown "FetchError" "socket hang up") false
      = Except.error "socket hang up" :=
  ⟨(c7_timeout_mapping false "The user aborted a request.").1,
   (c7_timeout_mapping false "socket hang up").2 "FetchError" "socket hang up" (by decide)⟩

/-- C2 (counterexample): from an empty cache, a refresh whose response
grants `expires_in = 60` stores an expiry 60 seconds ahead, and
`getAccessToken` hands that token out even though its expiry is within
the 5-minute safety margin of now. -/
theorem c2_claim_counterexample :
    getAccessTokenRun initialTokenState 0 0
      (TokenFetchOutcome.response 200 "OK"
        "\x7b\"access_token\":\"tok\",\"expires_in\":60\x7d"
        (ParseResult.success (Json.obj
          [("access_token", Json.str "tok"), ("expires_in", Json.num 60)])))
      = ({ accessToken := some (Json.str "tok"), tokenExpiresAt := JsNum.val 60000 }, true,
         Except.ok (some (Json.str "tok")))
    ∧ JsNum.gtInt (JsNum.val 60000) (0 + 5 * 60 * 1000) = false :=
  ⟨rfl, by decide⟩

/-- C2 (amended): `getAccessToken` returns the cached token without
contacting the token endpoint exactly when the cached token is truthy
and its expiry is strictly more than 5 minutes after now; otherwise it
contacts the endpoint through an awaited refresh and, on success,
returns whatever token the refresh stored — regardless of how soon that
fresh token expires. -/
theorem c2_token_reuse_policy (st : TokenState) (now refreshNow : Int)
    (outcome : TokenFetchOutcome) :
    ((getAccessTokenRun st now refreshNow outcome).2.1 = false ↔
      truthyTok st.accessToken = true
        ∧ st.tokenExpiresAt.gtInt (now + 5 * 60 * 1000) = true)
    ∧ (truthyTok st.accessToken = true ∧ st.tokenExpiresAt.gtInt (now + 5 * 60 * 1000) = true →
        getAccessTokenRun st now refreshNow outcome = (st, false, Except.ok st.accessToken))
    ∧ (¬(truthyTok st.accessToken = true ∧ st.tokenExpiresAt.gtInt (now + 5 * 60 * 1000) = true) →
        getAccessTokenRun st now refreshNow outcome =
          ((refreshTokenRun st refreshNow outcome).1, true,
           match (refreshTokenRun st refreshNow outcome).2 with
           | Except.ok _ => Except.ok (refreshTokenRun st refreshNow outcome).1.accessToken
           | Except.error e => Except.error e)) := by
  by_cases hcond : truthyTok st.accessToken = true
      ∧ st.tokenExpiresAt.gtInt (now + 5 * 60 * 1000) = true
  · have hb : (truthyTok st.accessToken && st.tokenExpiresAt.gtInt (now + 5 * 60 * 1000)) = true :=
      (Bool.and_eq_true _ _).mpr hcond
    have hrun : getAccessTokenRun st now refreshNow outcome
        = (st, false, Except.ok st.accessToken) := by
      unfold getAccessTokenRun
      rw [hb]
      rfl
    refine ⟨?_, fun _ => hrun, fun hc => absurd hcond hc⟩
    rw [hrun]
    simpa using hcond
  · have hb : (truthyTok st.accessToken && st.tokenExpiresAt.gtInt (now + 5 * 60 * 1000)) = false :=
      Bool.eq_false_iff.mpr (fun h => hcond ((Bool.and_eq_true _ _).mp h))
    rcases hr : refreshTokenRun st refreshNow outcome with ⟨st1, r⟩
    cases r with
    | ok u =>
      have hrun : getAccessTokenRun st now refreshNow outcome
          = (st1, true, Except.ok st1.accessToken) := by
        unfold getAccessTokenRun
        rw [hb, hr]
        rfl
      refine ⟨?_, fun h => absurd h hcond, fun _ => ?_⟩
      · rw [hrun]
        simpa using hcond
      · rw [hrun]
    | error e =>
      have hrun : getAccessTokenRun st now refreshNow outcome
          = (st1, true, Except.error e) := by
        unfold getAccessTokenRun
        rw [hb, hr]
        rfl
      refine ⟨?_, fun h => absurd h hcond, fun _ => ?_⟩
      · rw [hrun]
        simpa using hcond
      · rw [hrun]

/-- Witness for C2 (amended): a truthy cached token expiring well past
the margin is returned as-is with no endpoint contact. -/
theorem c2_token_reuse_policy_witness :
    getAccessTokenRun
      { accessToken := some (Json.str "cached"), tokenExpiresAt := JsNum.val 1000000 } 0 0
      (TokenFetchOutcome.thrown "FetchError" "unused")
      = ({ accessToken := some (Json.str "cached"), tokenExpiresAt := JsNum.val 1000000 }, false,
         Except.ok (some (Json.str "cached"))) :=
  (c2_token_reuse_policy
      { accessToken := some (Json.str "cached"), tokenExpiresAt := JsNum.val 1000000 } 0 0
      (TokenFetchOutcome.thrown "FetchError" "unused")).2.1 ⟨by decide, by decide⟩

/-- C3: a successful token-endpoint response stores `access_token` and
sets the absolute expiry to `now + expires_in * 1000` milliseconds,
where `expires_in` defaults to 3600 when the field is absent (stated for
numeric non-zero or absent `expires_in`). -/
theorem c3_refresh_stores_token (st : TokenState) (refreshNow : Int) (status : Nat)
    (statusText bodyText : String) (data : Json)
    (hok : respOk status = true)
    (hexp : data.get "expires_in" = none
      ∨ ∃ n : Int, n ≠ 0 ∧ data.get "expires_in" = some (Json.num n)) :
    refreshTokenRun st refreshNow
        (TokenFetchOutcome.response status statusText bodyText (ParseResult.success data)) =
      ({ accessToken := data.get "access_token",
         tokenExpiresAt := JsNum.val (refreshNow +
           (match data.get "expires_in" with
            | some (Json.num n) => n
            | _ => 3600) * 1000) },
       Except.ok ()) := by
  rcases hexp with h | ⟨n, hn, h⟩
  · simp [refreshTokenRun, refreshTokenRun.ateUpdate, computedExpiry, expiresInValue,
      truthyOpt, jsTruthy, hok, h]
  · simp [refreshTokenRun, refreshTokenRun.ateUpdate, computedExpiry, expiresInValue,
      truthyOpt, jsTruthy, hok, h, hn]

/-- Witness for C3: a response missing `expires_in` stores the token
with an expiry 3600 seconds after now. -/
theorem c3_refresh_stores_token_witness :
    refreshTokenRun initialTokenState 5
        (TokenFetchOutcome.response 200 "OK" "\x7b\"access_token\":\"t\"\x7d"
          (ParseResult.success (Json.obj [("access_token", Json.str "t")]))) =
      ({ accessToken := some (Json.str "t"), tokenExpiresAt := JsNum.val (5 + 3600 * 1000) },
       Except.ok ()) := by
  have h := c3_refresh_stores_token initialTokenState 5 200 "OK" "\x7b\"access_token\":\"t\"\x7d"
    (Json.obj [("access_token", Json.str "t")]) (by decide) (Or.inl rfl)
  rw [h]
  rfl

/-- C4: construction fails with the configuration error exactly when the
client identifier or the client secret is falsy (absent or empty),
whatever the other fields; with both present it succeeds and applies the
documented defaults for realm, both base URLs and the timeout. -/
theorem c4_constructor_validation (config : StackSpotConfig) :
    ((strTruthy config.clientId = false ∨ strTruthy config.clientSecret = false) →
      mkStackSpotClient config = Except.error "clientId e clientSecret são obrigatórios")
    ∧ (strTruthy config.clientId = true → strTruthy config.clientSecret = true →
      mkStackSpotClient config = Except.ok
        { clientId := config.clientId
          clientSecret := config.clientSecret
          realm := jsOrStr config.realm "stackspot-freemium"
          baseURL := jsOrStr config.baseURL "https://idm.stackspot.com"
          inferenceBaseURL := jsOrStr config.inferenceBaseURL "https://genai-inference-app.stackspot.com"
          timeout := jsOrInt config.timeout 30000
          toolExecutor := config.toolExecutor
          enableFunctionCalling := config.enableFunctionCalling }) := by
  constructor
  · rintro (h | h) <;> simp [mkStackSpotClient, h]
  · intro h1 h2
    simp [mkStackSpotClient, h1, h2]

/-- Witness for C4: a configuration carrying only the two credentials
constructs successfully with every default applied. -/
theorem c4_constructor_validation_witness :
    mkStackSpotClient
      { clientId := some "client-12345", clientSecret := some "secret-1", realm := none,
        baseURL := none, inferenceBaseURL := none, timeout := none,
        toolExecutor := none, enableFunctionCalling := none }
      = Except.ok
        { clientId := some "client-12345", clientSecret := some "secret-1",
          realm := "stackspot-freemium", baseURL := "https://idm.stackspot.com",
          inferenceBaseURL := "https://genai-inference-app.stackspot.com",
          timeout := 30000, toolExecutor := none, enableFunctionCalling := none } := by
  have h := (c4_constructor_validation
    { clientId := some "client-12345", clientSecret := some "secret-1", realm := none,
      baseURL := none, inferenceBaseURL := none, timeout := none,
      toolExecutor := none, enableFunctionCalling := none }).2 (by decide) (by decide)
  rw [h]
  rfl

/-- C5: `refreshToken` never partially updates the cache: on any failure
(network error, non-2xx status, or body parse failure) both cache fields
keep their prior values, and on success both fields come from the new
response together. -/
theorem c5_refresh_atomicity (st : TokenState) (refreshNow : Int)
    (outcome : TokenFetchOutcome) :
    (∀ e, (refreshTokenRun st refreshNow outcome).2 = Except.error e →
        (refreshTokenRun st refreshNow outcome).1 = st)
    ∧ (∀ st1, refreshTokenRun st refreshNow outcome = (st1, Except.ok ()) →
        ∃ status statusText bodyText data,
          outcome = TokenFetchOutcome.response status statusText bodyText
            (ParseResult.success data)
          ∧ respOk status = true
          ∧ st1.accessToken = data.get "access_token"
          ∧ st1.tokenExpiresAt = computedExpiry refreshNow data) := by
  constructor
  · intro e he
    cases outcome with
    | thrown name msg => rfl
    | response status statusText bodyText bodyParse =>
      cases hok : respOk status with
      | false => simp [refreshTokenRun, hok]
      | true =>
        cases bodyParse with
        | success data => simp [refreshTokenRun, hok] at he
        | failure m => simp [refreshTokenRun, hok]
  · intro st1 hst
    cases outcome with
    | thrown name msg => exact absurd hst (by simp [refreshTokenRun])
    | response status statusText bodyText bodyParse =>
      cases hok : respOk status with
      | false => exact absurd hst (by simp [refreshTokenRun, hok])
      | true =>
        cases bodyParse with
        | failure m => exact absurd hst (by simp [refreshTokenRun, hok])
        | success data =>
          have h1 : refreshTokenRun st refreshNow
              (TokenFetchOutcome.response status statusText bodyText
                (ParseResult.success data))
              = (({ accessToken := data.get "access_token",
                    tokenExpiresAt := computedExpiry refreshNow data } : TokenState),
                 Except.ok ()) := by
            simp [refreshTokenRun, refreshTokenRun.ateUpdate, hok]
          rw [h1] at hst
          injection hst with h2 h3
          exact ⟨status, statusText, bodyText, data, rfl, hok, by rw [← h2], by rw [← h2]⟩

/-- Witness for C5: after a network-level refresh failure the cache is
exactly its prior value. -/
theorem c5_refresh_atomicity_witness :
    (refreshTokenRun initialTokenState 7
        (TokenFetchOutcome.thrown "FetchError" "ECONNREFUSED")).1 = initialTokenState :=
  (c5_refresh_atomicity initialTokenState 7
      (TokenFetchOutcome.thrown "FetchError" "ECONNREFUSED")).1
    "Falha ao autenticar: ECONNREFUSED" rfl

/-- C8: each verb wrapper equals a direct call to `request` with the
method fixed and the path, body and options forwarded unchanged, for
every argument combination. -/
theorem c8_verb_wrappers_forward (cfg : InternalConfig) (st : TokenState) (path : String)
    (body : Option Json) (go : Option GetOptions) (po : Option PostOptions)
    (pu : Option PutOptions) (env : RequestEnv) :
    clientGet cfg st path go env
      = request cfg st "GET" path (getOptionsAsRequestOptions go) env
    ∧ clientPost cfg st path body po env
      = request cfg st "POST" path (postOptionsWithBody po body) env
    ∧ clientPut cfg st path body pu env
      = request cfg st "PUT" path (putOptionsWithBody pu body) env
    ∧ clientDelete cfg st path go env
      = request cfg st "DELETE" path (getOptionsAsRequestOptions go) env :=
  ⟨rfl, rfl, rfl, rfl⟩

/-- C9: a present-but-falsy `expires_in` (in particular 0) is treated
exactly like an absent one: the stored expiry becomes
`now + 3600 * 1000` milliseconds. -/
theorem c9_falsy_expires_in_defaults (st : TokenState) (refreshNow : Int) (status : Nat)
    (statusText bodyText : String) (data : Json)
    (hok : respOk status = true)
    (hfalsy : truthyOpt (data.get "expires_in") = none) :
    (refreshTokenRun st refreshNow
        (TokenFetchOutcome.response status statusText bodyText
          (ParseResult.success data))).1.tokenExpiresAt
      = JsNum.val (refreshNow + 3600 * 1000) := by
  simp [refreshTokenRun, refreshTokenRun.ateUpdate, computedExpiry, expiresInValue, hok, hfalsy]

/-- Witness for C9: `expires_in = 0` stores an expiry 3600 seconds after
now, same as absent. -/
theorem c9_falsy_expires_in_defaults_witness :
    (refreshTokenRun initialTokenState 5
        (TokenFetchOutcome.response 200 "OK"
          "\x7b\"access_token\":\"t\",\"expires_in\":0\x7d"
          (ParseResult.success (Json.obj
            [("access_token", Json.str "t"), ("expires_in", Json.num 0)])))).1.tokenExpiresAt
      = JsNum.val (5 + 3600 * 1000) :=
  c9_falsy_expires_in_defaults initialTokenState 5 200 "OK"
    "\x7b\"access_token\":\"t\",\"expires_in\":0\x7d"
    (Json.obj [("access_token", Json.str "t"), ("expires_in", Json.num 0)])
    (by decide) rfl

/-- C10: a falsy `options.body` (absent, null, 0, false or the empty
string) attaches no fetch body at all, streaming or not; a truthy body
is passed through raw in streaming mode and JSON-stringified otherwise;
and the fetch call `request` issues carries exactly this computed
body. -/
theorem c10_body_attachment (opts : RequestOptions) :
    (computeFetchBody opts = none ↔
      opts.body = none ∨ ∃ b, opts.body = some b ∧ jsTruthy b = false)
    ∧ (∀ b, opts.body = some b → jsTruthy b = true →
        computeFetchBody opts = some (if opts.stream then FetchBody.rawPassthrough b
          else FetchBody.jsonStringified b))
    ∧ (∀ cfg st method path env call,
        (request cfg st method path opts env).2.1 = some call →
        call.body = computeFetchBody opts) := by
  refine ⟨?_, ?_, ?_⟩
  · rcases opts with ⟨body, headers, baseURL, stream⟩
    cases body with
    | none => simp [computeFetchBody]
    | some b => cases ht : jsTruthy b <;> cases stream <;> simp [computeFetchBody, ht]
  · rcases opts with ⟨body, headers, baseURL, stream⟩
    intro b hb ht
    subst hb
    cases stream <;> simp [computeFetchBody, ht]
  · intro cfg st method path env call hcall
    rcases hg : getAccessTokenRun st env.now env.refreshNow env.tokenOutcome with ⟨st1, c, r⟩
    cases r with
    | error e => simp [request, hg] at hcall
    | ok token =>
      simp [request, hg] at hcall
      rw [← hcall]

/-- Witness for C10: the falsy body 0 attaches nothing even in streaming
mode, while a truthy string body is JSON-stringified in non-streaming
mode. -/
theorem c10_body_attachment_witness :
    computeFetchBody { body := some (Json.num 0), headers := [], baseURL := none, stream := true }
      = none
    ∧ computeFetchBody { body := some (Json.str "x"), headers := [], baseURL := none, stream := false }
      = some (FetchBody.jsonStringified (Json.str "x")) :=
  ⟨(c10_body_attachment
      { body := some (Json.num 0), headers := [], baseURL := none, stream := true }).1.mpr
      (Or.inr ⟨Json.num 0, rfl, rfl⟩),
   (c10_body_attachment
      { body := some (Json.str "x"), headers := [], baseURL := none, stream := false }).2.1
      (Json.str "x") rfl rfl⟩

end StackSpot
